import Mathlib

/-!
Verification of the object-storage snapshot store
(`internal/storage/fs/object/store.go`).

The Go code is shallowly embedded as pure Lean functions with explicit
state passing.  External collaborators that the store merely invokes
(the blob bucket's `List`/`NewReader`, `storagefs.ParseFliptIndex`,
`storagefs.DefaultFliptIndex`, `storagefs.SnapshotFromFiles`, and the
poller) are injected as function-valued parameters, mirroring how the Go
code treats them as opaque dependencies.  The snapshot representation is
a type parameter `σ` throughout, since the store never inspects it.
-/

namespace Object

/-- Error codes as distinguished by `gocloud.dev/gcerrors.Code`; the store
only ever distinguishes `NotFound` from everything else. -/
inductive ErrCode where
  | notFound
  | permissionDenied
  | unknown
deriving DecidableEq, Repr

/-- An error value carrying the gcerrors code the backend would report for
it plus an identifying message. -/
structure Error where
  code : ErrCode
  msg : String
deriving DecidableEq, Repr

/-- Embeds `gcerrors.Code(err)`: the code the gocloud error machinery
extracts from a backend error. -/
def gcerrorsCode (e : Error) : ErrCode := e.code

/-- An opened read stream (`*blob.Reader`), opaque to the store; modelled
as a token. -/
abbrev Reader := Nat

/-- One entry yielded by the bucket listing (`*blob.ListObject`): its key,
size and modification time (time modelled as an integer timestamp). -/
structure Item where
  key : String
  size : Int
  modTime : Int
deriving DecidableEq, Repr

/-- Modelled from the spec: a `File` is a named, sized, timestamped,
readable byte source handed to the external snapshot builder; `NewFile`
(defined outside the embedded source file) packs exactly the four
arguments `build` passes it. -/
structure File where
  key : String
  size : Int
  reader : Reader
  modTime : Int
deriving DecidableEq, Repr

/-- Embeds `NewFile(key, size, rd, modTime)`. -/
def NewFile (key : String) (size : Int) (rd : Reader) (modTime : Int) : File :=
  ⟨key, size, rd, modTime⟩

/-- An index (`*storagefs.FliptIndex`): for the store, purely a decision
function over relative keys (`idx.Match(key)`). -/
structure FliptIndex where
  Match : String → Bool

/-- Modelled from the spec: `storagefs.IndexFileName`, the well-known name
of the index object; its concrete value is irrelevant to the store's
logic. -/
def indexFileName : String := ".flipt.yml"

/-- The blob bucket handle (`*gcblob.Bucket`) as the store observes it:
`NewReader` either opens a read stream for a key or fails with an error,
and `List(prefix)` yields a finite sequence of items followed by a
terminal signal — `none` for EOF, `some e` for a listing error. -/
structure Bucket where
  newReader : String → Except Error Reader
  list : String → List Item × Option Error

/-- The external `storagefs` collaborators `build` calls into, injected as
functions: the index parser, the default-index constructor, and the
snapshot builder (`SnapshotFromFiles`). -/
structure Env (σ : Type) where
  parseFliptIndex : Reader → Except Error FliptIndex
  defaultFliptIndex : Except Error FliptIndex
  snapshotFromFiles : List File → Except Error σ

/-- The `SnapshotStore` state: configured scheme, bucket handle and key
namespace (`prefix` in Go, `pfx` here), the currently published snapshot
(`snap`, nil before the first publish), and whether the background poller
has been started (modelled as a flag, see `startPoller`). -/
structure SnapshotStore (σ : Type) where
  scheme : String
  bucket : Bucket
  pfx : String
  snap : Option σ
  poller : Option Unit

/-- Embeds Go `strings.HasPrefix(s, pre)`: byte-wise prefix test. -/
def strHasPfx (s pre : String) : Bool := pre.data.isPrefixOf s.data

/-- Embeds Go `strings.TrimPrefix(s, pre)`: drop `pre` from the front of
`s` when it is a prefix, otherwise return `s` unchanged. -/
def trimPfx (s pre : String) : String :=
  if strHasPfx s pre then ⟨s.data.drop pre.data.length⟩ else s

/-- Embeds the listing loop of `SnapshotStore.build` (the body between
`iterator.Next` calls): for each yielded item, trim the prefix from its
key, skip it if the index rejects the relative key, otherwise open a
reader at `prefix + key` (failing the build on a reader error) and append
a `File` built from the relative key, size, reader and mod time. -/
def collectFiles (b : Bucket) (pfx : String) (idx : FliptIndex) :
    List Item → Except Error (List File)
  | [] => .ok []
  | item :: rest =>
    let key := trimPfx item.key pfx
    if idx.Match key then
      match b.newReader (pfx ++ key) with
      | .error e => .error e
      | .ok rd =>
        match collectFiles b pfx idx rest with
        | .error e => .error e
        | .ok fs => .ok (NewFile key item.size rd item.modTime :: fs)
    else collectFiles b pfx idx rest

/-- Embeds `SnapshotStore.getIndex`: open a reader at
`prefix + indexFileName`; on success parse it (parse failure aborts); on
a reader error, fail unless the error's gcerrors code is `NotFound`, in
which case fall back to the default index. -/
def getIndex (env : Env σ) (s : SnapshotStore σ) : Except Error FliptIndex :=
  match s.bucket.newReader (s.pfx ++ indexFileName) with
  | .ok rd =>
    match env.parseFliptIndex rd with
    | .error e => .error e
    | .ok idx => .ok idx
  | .error err =>
    if gcerrorsCode err ≠ ErrCode.notFound then .error err
    else env.defaultFliptIndex

/-- Embeds `SnapshotStore.build`: resolve the index, list the bucket under
the configured prefix, collect the matching files (any reader error
aborts), fail if the listing terminated with a non-EOF error, and
otherwise hand the collected files to `SnapshotFromFiles`. -/
def build (env : Env σ) (s : SnapshotStore σ) : Except Error σ :=
  match getIndex env s with
  | .error e => .error e
  | .ok idx =>
    match collectFiles s.bucket s.pfx idx (s.bucket.list s.pfx).1 with
    | .error e => .error e
    | .ok files =>
      match (s.bucket.list s.pfx).2 with
      | some e => .error e
      | none => env.snapshotFromFiles files

/-- Embeds `SnapshotStore.update`: build a new snapshot; on failure return
`(false, err)` leaving the store untouched, on success swap the published
snapshot and return `(true, nil)`.  The mutation of `s.snap` under the
write lock is modelled by returning the updated store. -/
def update (env : Env σ) (s : SnapshotStore σ) :
    SnapshotStore σ × Bool × Option Error :=
  match build env s with
  | .error e => (s, false, some e)
  | .ok sn => ({ s with snap := some sn }, true, none)

/-- Embeds `SnapshotStore.View`: invoke `fn` on the currently published
snapshot (under the read lock) and return its result; the store is
returned unchanged to make the absence of mutation explicit. -/
def View (s : SnapshotStore σ) (fn : Option σ → Option Error) :
    SnapshotStore σ × Option Error :=
  (s, fn s.snap)

/-- Embeds `SnapshotStore.String`: returns the configured scheme. -/
def storeString (s : SnapshotStore σ) : String := s.scheme

/-- Embeds the option `WithPrefix(prefix)`. -/
def WithPrefix (p : String) : SnapshotStore σ → SnapshotStore σ :=
  fun s => { s with pfx := p }

/-- Modelled from the spec: `storagefs.NewPoller`/`go s.Poll()` — on
successful construction the store starts its background poll loop; the
poller itself lives outside the embedded source file, so starting it is
modelled as setting a flag on the store. -/
def startPoller (s : SnapshotStore σ) : SnapshotStore σ :=
  { s with poller := some () }

/-- The store as `NewSnapshotStore` configures it before the initial
update: zero values plus the applied options (`containers.ApplyAll`). -/
def initStore (scheme : String) (b : Bucket)
    (opts : List (SnapshotStore σ → SnapshotStore σ)) : SnapshotStore σ :=
  opts.foldl (fun st o => o st)
    { scheme := scheme, bucket := b, pfx := "", snap := none, poller := none }

/-- Embeds `NewSnapshotStore`: apply the options, run one synchronous
`update`; if it fails return the error (and no store), otherwise start
the poller and return the updated store. -/
def NewSnapshotStore (env : Env σ) (scheme : String) (b : Bucket)
    (opts : List (SnapshotStore σ → SnapshotStore σ)) :
    Except Error (SnapshotStore σ) :=
  let s := initStore scheme b opts
  match update env s with
  | (_, _, some e) => .error e
  | (s', _, none) => .ok (startPoller s')

/-! ### Concrete fixtures used by the witness theorems -/

/-- An index accepting every key. -/
def allIndex : FliptIndex := ⟨fun _ => true⟩

/-- An index accepting exactly `"a.yml"`. -/
def yesNoIndex : FliptIndex := ⟨fun k => k == "a.yml"⟩

/-- A collaborator environment whose parser yields `yesNoIndex`, whose
default index is `allIndex`, and whose snapshot builder counts files. -/
def sampleEnv : Env Nat :=
  { parseFliptIndex := fun _ => .ok yesNoIndex
    defaultFliptIndex := .ok allIndex
    snapshotFromFiles := fun fs => .ok fs.length }

/-- A collaborator environment whose parser always fails. -/
def parseFailEnv : Env Nat :=
  { parseFliptIndex := fun _ => .error ⟨ErrCode.unknown, "parse failed"⟩
    defaultFliptIndex := .ok allIndex
    snapshotFromFiles := fun fs => .ok fs.length }

/-- A bucket with no index object (every read reports NotFound) whose
listing fails after yielding nothing. -/
def listFailBucket : Bucket :=
  { newReader := fun _ => .error ⟨ErrCode.notFound, "missing"⟩
    list := fun _ => ([], some ⟨ErrCode.unknown, "list failed"⟩) }

/-- A store over `listFailBucket`. -/
def listFailStore : SnapshotStore Nat :=
  { scheme := "s3i", bucket := listFailBucket, pfx := "", snap := none
    poller := none }

/-- A bucket whose every read succeeds and whose listing is empty. -/
def okIndexBucket : Bucket :=
  { newReader := fun _ => .ok 0
    list := fun _ => ([], none) }

/-- A store over `okIndexBucket`. -/
def okIndexStore : SnapshotStore Nat :=
  { scheme := "s3i", bucket := okIndexBucket, pfx := "", snap := none
    poller := none }

/-- A bucket with no index object, one listed entry `a.yml`, and readers
that succeed on every other key. -/
def okBucket : Bucket :=
  { newReader := fun k =>
      if k == indexFileName then .error ⟨ErrCode.notFound, "no index"⟩
      else .ok 7
    list := fun _ => ([⟨"a.yml", 3, 11⟩], none) }

/-- A store over `okBucket`. -/
def okStore : SnapshotStore Nat :=
  { scheme := "s3i", bucket := okBucket, pfx := "", snap := none
    poller := none }

/-- A bucket listing `a.yml` and `b.yml` where only `a.yml` can actually
be read — opening `b.yml` would fail. -/
def abBucket : Bucket :=
  { newReader := fun k =>
      if k == "a.yml" then .ok 7 else .error ⟨ErrCode.permissionDenied, "denied"⟩
    list := fun _ => ([⟨"a.yml", 3, 11⟩, ⟨"b.yml", 4, 12⟩], none) }

/-! ### Helper lemmas -/

/-- If the index rejects every listed entry, the listing loop collects no
files and opens no readers. -/
theorem collectFiles_all_rejected (b : Bucket) (pfx : String) (idx : FliptIndex)
    (items : List Item)
    (h : ∀ it ∈ items, idx.Match (trimPfx it.key pfx) = false) :
    collectFiles b pfx idx items = .ok [] := by
  induction items with
  | nil => rfl
  | cons it rest ih =>
    have hm := h it (List.mem_cons_self it rest)
    simp only [collectFiles, hm, Bool.false_eq_true, if_false]
    exact ih fun x hx => h x (List.mem_cons_of_mem _ hx)

/-! ### Claim theorems -/

/-- C1: for every state of the store and every failing build (index,
listing or reader error alike — any `e` with `build = .error e`),
`update` returns that error with `changed = false` and leaves the store,
in particular the published snapshot reference, exactly as it was. -/
theorem update_error_preserves_state (env : Env σ) (s : SnapshotStore σ)
    (e : Error) (h : build env s = .error e) :
    update env s = (s, false, some e) := by
  simp [update, h]

/-- Witness for C1: a bucket whose listing fails leaves the store
untouched and surfaces the listing error with `changed = false`. -/
theorem update_error_preserves_state_witness :
    update sampleEnv listFailStore =
      (listFailStore, false, some ⟨ErrCode.unknown, "list failed"⟩) :=
  update_error_preserves_state sampleEnv listFailStore
    ⟨ErrCode.unknown, "list failed"⟩ rfl

/-- C2: `NewSnapshotStore` is determined by the one synchronous initial
update on the option-configured store: if that build fails the
construction returns exactly that error (and no store); if it succeeds
the construction returns the store with the built snapshot published and
the background poller started. -/
theorem newSnapshotStore_spec (env : Env σ) (scheme : String) (b : Bucket)
    (opts : List (SnapshotStore σ → SnapshotStore σ)) :
    NewSnapshotStore env scheme b opts =
      match build env (initStore scheme b opts) with
      | .error e => .error e
      | .ok sn => .ok (startPoller { initStore scheme b opts with snap := some sn }) := by
  simp only [NewSnapshotStore, update]
  cases build env (initStore scheme b opts) <;> rfl

/-- C3: when opening the index object at `prefix + indexFileName` fails,
`getIndex` falls back to the default index exactly when the error's
gcerrors code is NotFound; every other reader error is returned as a
failure. -/
theorem getIndex_reader_error (env : Env σ) (s : SnapshotStore σ) (e : Error)
    (h : s.bucket.newReader (s.pfx ++ indexFileName) = .error e) :
    getIndex env s =
      if gcerrorsCode e = ErrCode.notFound then env.defaultFliptIndex
      else .error e := by
  by_cases hc : gcerrorsCode e = ErrCode.notFound <;>
    simp [getIndex, h, hc]

/-- Witness for C3: a bucket whose index read reports NotFound resolves
to the default index. -/
theorem getIndex_reader_error_witness :
    getIndex sampleEnv listFailStore = sampleEnv.defaultFliptIndex := by
  have h := getIndex_reader_error sampleEnv listFailStore
    ⟨ErrCode.notFound, "missing"⟩ rfl
  simpa using h

/-- C4: if the index object opens successfully but fails to parse, the
whole build fails with that parse error — the default index is never
substituted for a malformed index. -/
theorem build_parse_error (env : Env σ) (s : SnapshotStore σ) (rd : Reader)
    (e : Error)
    (hrd : s.bucket.newReader (s.pfx ++ indexFileName) = .ok rd)
    (hp : env.parseFliptIndex rd = .error e) :
    build env s = .error e := by
  simp [build, getIndex, hrd, hp]

/-- Witness for C4: an environment whose parser always fails turns a
present index object into a build failure with the parse error. -/
theorem build_parse_error_witness :
    build parseFailEnv okIndexStore = .error ⟨ErrCode.unknown, "parse failed"⟩ :=
  build_parse_error parseFailEnv okIndexStore 0
    ⟨ErrCode.unknown, "parse failed"⟩ rfl rfl

/-- C5: given readers for the accepted keys (nothing is assumed about
keys the index rejects — no reader is opened for them), the listing loop
produces exactly one `File` per accepted entry, carrying the
prefix-stripped relative key, the entry's size, the opened reader, and
the entry's modification time, and skips every rejected entry. -/
theorem build_filters_entries (b : Bucket) (pfx : String) (idx : FliptIndex)
    (items : List Item) (rdOf : String → Reader)
    (h : ∀ it ∈ items, idx.Match (trimPfx it.key pfx) = true →
        b.newReader (pfx ++ trimPfx it.key pfx) =
          .ok (rdOf (pfx ++ trimPfx it.key pfx))) :
    collectFiles b pfx idx items = .ok (items.filterMap (fun it =>
      if idx.Match (trimPfx it.key pfx) then
        some (NewFile (trimPfx it.key pfx) it.size
          (rdOf (pfx ++ trimPfx it.key pfx)) it.modTime)
      else none)) := by
  induction items with
  | nil => rfl
  | cons it rest ih =>
    have ihr := ih fun x hx => h x (List.mem_cons_of_mem _ hx)
    by_cases hm : idx.Match (trimPfx it.key pfx) = true
    · have hrd := h it (List.mem_cons_self it rest) hm
      simp [collectFiles, hm, hrd, ihr, List.filterMap_cons]
    · simp only [Bool.not_eq_true] at hm
      simp [collectFiles, hm, ihr, List.filterMap_cons]

/-- Witness for C5: with an index accepting `a.yml` and rejecting
`b.yml`, over a bucket where opening `b.yml` would fail, the loop yields
exactly the `File` for `a.yml` — so no reader was opened for `b.yml`. -/
theorem build_filters_entries_witness :
    collectFiles abBucket "" yesNoIndex [⟨"a.yml", 3, 11⟩, ⟨"b.yml", 4, 12⟩] =
      .ok [NewFile "a.yml" 3 7 11] := by
  have h := build_filters_entries abBucket "" yesNoIndex
    [⟨"a.yml", 3, 11⟩, ⟨"b.yml", 4, 12⟩] (fun _ => 7) ?hr
  case hr =>
    intro it hit hm
    fin_cases hit
    · rfl
    · exact absurd hm (by decide)
  simpa using h

/-- C6: whenever `build` succeeds, `update` publishes the freshly built
snapshot and returns `changed = true` with no error; moreover `update`
can never return `(false, nil)`. -/
theorem update_success_publishes (env : Env σ) (s : SnapshotStore σ) (sn : σ)
    (h : build env s = .ok sn) :
    update env s = ({ s with snap := some sn }, true, none) ∧
      ∀ (env' : Env σ) (s' : SnapshotStore σ),
        (update env' s').2 ≠ ((false : Bool), (none : Option Error)) := by
  refine ⟨by simp [update, h], fun env' s' => ?_⟩
  unfold update
  cases build env' s' <;> simp

/-- Witness for C6: a successful poll over `okBucket` publishes the
one-file snapshot and reports `changed = true`. -/
theorem update_success_publishes_witness :
    update sampleEnv okStore = ({ okStore with snap := some 1 }, true, none) :=
  (update_success_publishes sampleEnv okStore 1 rfl).1

/-- C7: `View` returns exactly what `fn` returned when applied to the
currently published snapshot, and leaves the store — in particular the
published snapshot reference — unmodified. -/
theorem view_applies_fn (s : SnapshotStore σ) (fn : Option σ → Option Error) :
    (View s fn).2 = fn s.snap ∧ (View s fn).1 = s :=
  ⟨rfl, rfl⟩

/-- C8: `scheme`, `bucket` and `pfx` are untouched by `update` and `View`
(`build` is a pure function of the store and returns no store at all),
and the identification operation returns the configured scheme with no
other effect. -/
theorem config_immutable (env : Env σ) (s : SnapshotStore σ)
    (fn : Option σ → Option Error) :
    ((update env s).1.scheme = s.scheme ∧ (update env s).1.bucket = s.bucket ∧
      (update env s).1.pfx = s.pfx) ∧
    ((View s fn).1.scheme = s.scheme ∧ (View s fn).1.bucket = s.bucket ∧
      (View s fn).1.pfx = s.pfx) ∧
    storeString s = s.scheme := by
  refine ⟨?_, ⟨rfl, rfl, rfl⟩, rfl⟩
  unfold update
  cases build env s <;> simp

/-- C9: if the index resolves, the listing ends in EOF, and the index
rejects every yielded entry (in particular when there are none), `build`
does not fail in this component: it returns exactly the external snapshot
builder's result on the empty file collection. -/
theorem build_empty_files (env : Env σ) (s : SnapshotStore σ) (idx : FliptIndex)
    (hidx : getIndex env s = .ok idx)
    (heof : (s.bucket.list s.pfx).2 = none)
    (hrej : ∀ it ∈ (s.bucket.list s.pfx).1,
      idx.Match (trimPfx it.key s.pfx) = false) :
    build env s = env.snapshotFromFiles [] := by
  simp [build, hidx, heof, collectFiles_all_rejected _ _ _ _ hrej]

/-- Witness for C9: an empty bucket listing yields the builder's result
on no files (here: the snapshot `0`). -/
theorem build_empty_files_witness :
    build sampleEnv okIndexStore = sampleEnv.snapshotFromFiles [] :=
  build_empty_files sampleEnv okIndexStore yesNoIndex rfl rfl
    (by intro it hit; simp [okIndexStore, okIndexBucket] at hit)

/-- C10: for a listed key starting with the configured namespace, the key
`build` opens — the namespace rejoined with the trimmed relative key —
round-trips to the original listed key; for a key not starting with it,
`trimPfx` leaves the key unchanged and the rejoined key differs from the
listed one. -/
theorem trim_roundtrip (key pfx : String) :
    (strHasPfx key pfx = true → pfx ++ trimPfx key pfx = key) ∧
    (strHasPfx key pfx = false →
      trimPfx key pfx = key ∧ pfx ++ trimPfx key pfx ≠ key) := by
  obtain ⟨kd⟩ := key
  obtain ⟨pd⟩ := pfx
  constructor
  · intro h
    have hp : pd <+: kd :=
      List.isPrefixOf_iff_prefix.mp (by simpa [strHasPfx] using h)
    have happ : pd ++ List.drop pd.length kd = kd :=
      List.prefix_iff_eq_append.mp hp
    have hthen : trimPfx ⟨kd⟩ ⟨pd⟩ = ⟨kd.drop pd.length⟩ := by
      simp [trimPfx, h]
    rw [hthen]
    exact String.ext happ
  · intro h
    have hels : trimPfx ⟨kd⟩ ⟨pd⟩ = ⟨kd⟩ := by
      simp [trimPfx, h]
    refine ⟨hels, ?_⟩
    rw [hels]
    intro hcontra
    have hdata : pd ++ kd = kd := congrArg String.data hcontra
    have hpd : pd = [] := by
      have hl := congrArg List.length hdata
      simp only [List.length_append] at hl
      exact List.length_eq_zero.mp (by omega)
    subst hpd
    have : strHasPfx ⟨kd⟩ ⟨[]⟩ = true :=
      List.isPrefixOf_iff_prefix.mpr List.nil_prefix
    simp [this] at h

/-- Witness for C10: with namespace `dir/`, a key inside it round-trips
and a key outside it is left unchanged yet differs once rejoined. -/
theorem trim_roundtrip_witness :
    ("dir/" ++ trimPfx "dir/a.yml" "dir/" = "dir/a.yml") ∧
    (trimPfx "other.yml" "dir/" = "other.yml" ∧
      "dir/" ++ trimPfx "other.yml" "dir/" ≠ "other.yml") :=
  ⟨(trim_roundtrip "dir/a.yml" "dir/").1 (by decide),
   (trim_roundtrip "other.yml" "dir/").2 (by decide)⟩

end Object
